import Mathlib

/-!
Verification development for the GPflow example-notebook repository.

The repository under review consists of two Jupyter notebooks:
  * `doc/source/notebooks/natural_gradients.ipynb` (the "natural gradients"
    notebook, `src/unnamed/part_000`), and
  * `doc/source/notebooks/monitor-tensorboard.ipynb`.

Both notebooks are glue code over the GPflow / TensorFlow / NumPy /
Matplotlib libraries.  We embed the notebooks at statement granularity:
each Python statement of interest becomes a `PyStmt` record whose boolean
fields classify its observable behaviour (which external libraries it
calls, whether it prints a result, constructs a model, invokes a training
loop, writes files, alters warning filtering, resumes from a checkpoint,
spawns a thread, or contains error-handling of its own).  The repository's
own function and class bodies are additionally embedded as executable Lean
functions where a claim depends on their computational behaviour.
-/

/-- External libraries the notebooks call into. -/
inductive Lib where
  | gpflow
  | tensorflow
  | numpy
  | matplotlib
  | pythonStd
deriving DecidableEq, Repr

/-- A Python statement of the notebooks, classified by its observable
behaviour.  `desc` is a short rendering of the source text. -/
structure PyStmt where
  desc : String
  /-- external libraries this statement calls into -/
  callsExternal : List Lib := []
  /-- prints or displays a computed result (stdout print or cell output) -/
  printsResult : Bool := false
  /-- constructs a model object of the external library -/
  constructsModel : Bool := false
  /-- constructs an optimizer, monitor, task or writer object -/
  constructsOptimizer : Bool := false
  /-- invokes a training loop -/
  invokesTraining : Bool := false
  /-- directory under which this statement (or the object it builds) writes files -/
  writesUnder : Option String := none
  /-- alters how warnings surface -/
  altersWarnings : Bool := false
  /-- detects a prior run or interruption and resumes from it -/
  resumesFromCheckpoint : Bool := false
  /-- contains error-handling (try/except/raise) written by the repository -/
  ownErrorHandling : Bool := false
  /-- creates a thread or process, or coordinates an interleaving -/
  spawnsThread : Bool := false
deriving DecidableEq, Repr

/-- The code statements of the natural-gradients notebook, in execution
order.  Cells that contain several statements are split. -/
def natgradsStmts : List PyStmt :=
  [ { desc := "imports of matplotlib, warnings, numpy, tensorflow, gpflow and gpflow submodules"
    , callsExternal := [.matplotlib, .numpy, .tensorflow, .gpflow, .pythonStd] }
  , { desc := "warnings.filterwarnings ignore"
    , callsExternal := [.pythonStd], altersWarnings := true }
  , { desc := "np.random.seed 0", callsExternal := [.numpy] }
  , { desc := "N, D = 100, 2 and M = 10" }
  , { desc := "X = np.random.uniform size N D", callsExternal := [.numpy] }
  , { desc := "Y = np.sin of 10 X", callsExternal := [.numpy] }
  , { desc := "Z = np.random.uniform size M D", callsExternal := [.numpy] }
  , { desc := "learning_rate = 0.01 and iterations = 5" }
  , { desc := "def make_matern_kernel" }
  , { desc := "class PrintAction with init and run" }
  , { desc := "vgp = VGP X Y matern kernel Gaussian likelihood"
    , callsExternal := [.gpflow], constructsModel := true }
  , { desc := "gpr = GPR X Y matern kernel"
    , callsExternal := [.gpflow], constructsModel := true }
  , { desc := "display gpr.compute_log_likelihood"
    , callsExternal := [.gpflow], printsResult := true }
  , { desc := "display vgp.compute_log_likelihood"
    , callsExternal := [.gpflow], printsResult := true }
  , { desc := "construct NatGradOptimizer gamma 1"
    , callsExternal := [.gpflow], constructsOptimizer := true }
  , { desc := "NatGradOptimizer minimize vgp maxiter 1 var_list q_mu q_sqrt"
    , callsExternal := [.gpflow], invokesTraining := true }
  , { desc := "display vgp.compute_log_likelihood after nat grad step"
    , callsExternal := [.gpflow], printsResult := true }
  , { desc := "def run_adam" }
  , { desc := "def run_nat_grads_with_adam" }
  , { desc := "run_adam gpr with PrintAction callback"
    , callsExternal := [.gpflow], constructsOptimizer := true
    , invokesTraining := true, printsResult := true }
  , { desc := "run_nat_grads_with_adam vgp with PrintAction callback"
    , callsExternal := [.gpflow], constructsOptimizer := true
    , invokesTraining := true, printsResult := true }
  , { desc := "display formatted gpr and vgp lengthscales"
    , callsExternal := [.gpflow], printsResult := true }
  , { desc := "svgp = SVGP X Y matern kernel Gaussian likelihood Z"
    , callsExternal := [.gpflow], constructsModel := true }
  , { desc := "sgpr = SGPR X Y matern kernel Z"
    , callsExternal := [.gpflow], constructsModel := true }
  , { desc := "set likelihood.variance = 0.1 for svgp and sgpr"
    , callsExternal := [.gpflow] }
  , { desc := "display sgpr.compute_log_likelihood"
    , callsExternal := [.gpflow], printsResult := true }
  , { desc := "display svgp.compute_log_likelihood"
    , callsExternal := [.gpflow], printsResult := true }
  , { desc := "construct NatGradOptimizer 1.0"
    , callsExternal := [.gpflow], constructsOptimizer := true }
  , { desc := "NatGradOptimizer minimize svgp maxiter 1"
    , callsExternal := [.gpflow], invokesTraining := true }
  , { desc := "display svgp.compute_log_likelihood after nat grad step"
    , callsExternal := [.gpflow], printsResult := true }
  , { desc := "svgp = SVGP with minibatch_size 50"
    , callsExternal := [.gpflow], constructsModel := true }
  , { desc := "svgp.likelihood.variance = 0.1", callsExternal := [.gpflow] }
  , { desc := "construct NatGradOptimizer gamma 0.1"
    , callsExternal := [.gpflow], constructsOptimizer := true }
  , { desc := "NatGradOptimizer minimize svgp maxiter 100"
    , callsExternal := [.gpflow], invokesTraining := true }
  , { desc := "display np.average of 1000 svgp.compute_log_likelihood samples"
    , callsExternal := [.numpy, .gpflow], printsResult := true }
  , { desc := "gpflow.reset_default_graph_and_session", callsExternal := [.gpflow] }
  , { desc := "svgp_ordinary and svgp_nat = SVGP with minibatch_size 50"
    , callsExternal := [.gpflow], constructsModel := true }
  , { desc := "AdamOptimizer minimize svgp_ordinary"
    , callsExternal := [.gpflow], constructsOptimizer := true, invokesTraining := true }
  , { desc := "run_nat_grads_with_adam svgp_nat"
    , callsExternal := [.gpflow], constructsOptimizer := true, invokesTraining := true }
  , { desc := "display np.average likelihood of svgp_ordinary"
    , callsExternal := [.numpy, .gpflow], printsResult := true }
  , { desc := "display np.average likelihood of svgp_nat"
    , callsExternal := [.numpy, .gpflow], printsResult := true }
  , { desc := "gpflow.reset_default_graph_and_session again", callsExternal := [.gpflow] }
  , { desc := "Y_binary = np.random.choice", callsExternal := [.numpy] }
  , { desc := "vgp_bernoulli and vgp_bernoulli_natgrads = VGP Bernoulli"
    , callsExternal := [.gpflow], constructsModel := true }
  , { desc := "AdamOptimizer minimize vgp_bernoulli"
    , callsExternal := [.gpflow], constructsOptimizer := true, invokesTraining := true }
  , { desc := "run_nat_grads_with_adam vgp_bernoulli_natgrads"
    , callsExternal := [.gpflow], constructsOptimizer := true, invokesTraining := true }
  , { desc := "display vgp_bernoulli.compute_log_likelihood"
    , callsExternal := [.gpflow], printsResult := true }
  , { desc := "display vgp_bernoulli_natgrads.compute_log_likelihood"
    , callsExternal := [.gpflow], printsResult := true }
  , { desc := "vgp_bernoulli_natgrads_xi = VGP Bernoulli"
    , callsExternal := [.gpflow], constructsModel := true }
  , { desc := "var_list with XiSqrtMeanVar", callsExternal := [.gpflow] }
  , { desc := "run_nat_grads_with_adam vgp_bernoulli_natgrads_xi with var_list"
    , callsExternal := [.gpflow], constructsOptimizer := true, invokesTraining := true }
  , { desc := "display vgp_bernoulli_natgrads_xi.compute_log_likelihood"
    , callsExternal := [.gpflow], printsResult := true } ]

/-- The code statements of the monitor-tensorboard notebook, in execution
order. -/
def monitorStmts : List PyStmt :=
  [ { desc := "imports of itertools, os, numpy, gpflow, monitor, numbers, matplotlib, tensorflow"
    , callsExternal := [.pythonStd, .numpy, .gpflow, .matplotlib, .tensorflow] }
  , { desc := "os.environ CUDA_VISIBLE_DEVICES set empty", callsExternal := [.pythonStd] }
  , { desc := "np.random.seed 0 and generation of X Y Xt Yt", callsExternal := [.numpy] }
  , { desc := "m = SVGP X Y RBF Gaussian within defer_build and m.compile"
    , callsExternal := [.gpflow], constructsModel := true }
  , { desc := "print LML before the optimisation"
    , callsExternal := [.gpflow], printsResult := true }
  , { desc := "session = m.enquire_session", callsExternal := [.gpflow] }
  , { desc := "global_step = mon.create_global_step session", callsExternal := [.gpflow] }
  , { desc := "print_task = mon.PrintTimingsTask with condition"
    , callsExternal := [.gpflow], constructsOptimizer := true }
  , { desc := "sleep_task = mon.SleepTask 0.01"
    , callsExternal := [.gpflow], constructsOptimizer := true }
  , { desc := "saver_task = mon.CheckpointTask ./monitor-saves"
    , callsExternal := [.gpflow], constructsOptimizer := true
    , writesUnder := some "./monitor-saves" }
  , { desc := "file_writer = mon.LogdirWriter ./model-tensorboard"
    , callsExternal := [.gpflow], constructsOptimizer := true
    , writesUnder := some "./model-tensorboard" }
  , { desc := "model_tboard_task = mon.ModelToTensorBoardTask file_writer m"
    , callsExternal := [.gpflow], constructsOptimizer := true
    , writesUnder := some "./model-tensorboard" }
  , { desc := "lml_tboard_task = mon.LmlToTensorBoardTask file_writer m"
    , callsExternal := [.gpflow], constructsOptimizer := true
    , writesUnder := some "./model-tensorboard" }
  , { desc := "class CustomTensorBoardTask extending BaseTensorBoardTask" }
  , { desc := "custom_tboard_task = CustomTensorBoardTask file_writer m Xt Yt"
    , callsExternal := [.gpflow, .tensorflow], constructsOptimizer := true
    , writesUnder := some "./model-tensorboard" }
  , { desc := "monitor_tasks list and monitor = mon.Monitor"
    , callsExternal := [.gpflow], constructsOptimizer := true }
  , { desc := "if os.path.isdir ./monitor-saves then mon.restore_session"
    , callsExternal := [.pythonStd, .gpflow], resumesFromCheckpoint := true }
  , { desc := "optimiser = gpflow.train.AdamOptimizer 0.01"
    , callsExternal := [.gpflow], constructsOptimizer := true }
  , { desc := "optimiser.minimize m with monitor step_callback maxiter 450"
    , callsExternal := [.gpflow], invokesTraining := true, printsResult := true }
  , { desc := "file_writer.close", callsExternal := [.gpflow] }
  , { desc := "print LML after the optimisation"
    , callsExternal := [.gpflow], printsResult := true } ]

/-- All repository statements of both notebooks. -/
def allStmts : List PyStmt := natgradsStmts ++ monitorStmts

instance : Inhabited PyStmt := ⟨{ desc := "" }⟩

/-- Indices of the statements of `nb` satisfying `p`, in order. -/
def idxWhere (nb : List PyStmt) (p : PyStmt → Bool) : List Nat :=
  (nb.enum.filter (fun x => p x.2)).map (fun x => x.1)

/-- Every statement satisfying `p` comes strictly before every statement
satisfying `q`. -/
def pairwiseBefore (nb : List PyStmt) (p q : PyStmt → Bool) : Bool :=
  (idxWhere nb p).all fun i => (idxWhere nb q).all fun j => decide (i < j)

/-- Index of the first statement invoking a training loop. -/
def firstTrainingIdx (nb : List PyStmt) : Nat :=
  nb.findIdx (fun s => s.invokesTraining)

/-- A statement inside a repository-defined function or class body. -/
structure RepoStep where
  desc : String
  /-- the statement performs a numerical computation -/
  numeric : Bool := false
  /-- the computation is performed by a call into an external library -/
  viaExternal : Bool := false
  /-- plain Python scalar arithmetic computing minibatch counts or slice bounds -/
  indexArith : Bool := false
  /-- non-trivial algorithmic work implemented in the repository itself -/
  nontrivialAlg : Bool := false
deriving DecidableEq, Repr

/-- Body of `make_matern_kernel` (natural-gradients notebook, cell 1). -/
def makeMaternKernelSteps : List RepoStep :=
  [ { desc := "return gpflow.kernels.Matern52 D", viaExternal := true } ]

/-- Body of `PrintAction.__init__` (natural-gradients notebook, cell 1). -/
def printActionInitSteps : List RepoStep :=
  [ { desc := "self.model = model" }
  , { desc := "self.text = text" } ]

/-- Body of `PrintAction.run` (natural-gradients notebook, cell 1). -/
def printActionRunSteps : List RepoStep :=
  [ { desc := "likelihood = ctx.session.run of model.likelihood_tensor"
    , numeric := true, viaExternal := true }
  , { desc := "print formatted text, iteration and likelihood" } ]

/-- Body of `run_adam` (natural-gradients notebook, cell 6). -/
def runAdamSteps : List RepoStep :=
  [ { desc := "adam = AdamOptimizer lr make_optimize_action model", viaExternal := true }
  , { desc := "actions = adam with optional callback" }
  , { desc := "Loop actions stop iterations executed", numeric := true, viaExternal := true }
  , { desc := "model.anchor of model.enquire_session", viaExternal := true } ]

/-- Body of `run_nat_grads_with_adam` (natural-gradients notebook, cell 7). -/
def runNatGradsWithAdamSteps : List RepoStep :=
  [ { desc := "if var_list is None then var_list = pair q_mu q_sqrt" }
  , { desc := "model.q_mu.set_trainable False", viaExternal := true }
  , { desc := "model.q_sqrt.set_trainable False", viaExternal := true }
  , { desc := "adam = AdamOptimizer lr make_optimize_action model", viaExternal := true }
  , { desc := "natgrad = NatGradOptimizer gamma make_optimize_action model var_list"
    , viaExternal := true }
  , { desc := "actions = adam, natgrad and optional callback" }
  , { desc := "Loop actions stop iterations executed", numeric := true, viaExternal := true }
  , { desc := "model.anchor of model.enquire_session", viaExternal := true } ]

/-- Body of `CustomTensorBoardTask.__init__` (monitor notebook, cell 6). -/
def customTBInitSteps : List RepoStep :=
  [ { desc := "super init file_writer model", viaExternal := true }
  , { desc := "self.Xt = Xt" }
  , { desc := "self.Yt = Yt" }
  , { desc := "self._full_test_err = tf.placeholder", viaExternal := true }
  , { desc := "self._full_test_nlpp = tf.placeholder", viaExternal := true }
  , { desc := "self._summary = tf.summary.merge of scalar summaries", viaExternal := true } ]

/-- Body of `CustomTensorBoardTask.run` (monitor notebook, cell 6). -/
def customTBRunSteps : List RepoStep :=
  [ { desc := "minibatch_size = 100" }
  , { desc := "number of minibatches as minus of minus len Xt floordiv minibatch_size"
    , numeric := true, indexArith := true }
  , { desc := "slice bounds mb times minibatch_size and mb plus one times minibatch_size"
    , numeric := true, indexArith := true }
  , { desc := "preds = np.vstack of model.predict_y over slices of Xt"
    , numeric := true, viaExternal := true }
  , { desc := "test_err = np.mean of squared residuals to the power one half"
    , numeric := true, viaExternal := true }
  , { desc := "self._eval_summary context with feeds for test_err and nlpp"
    , viaExternal := true } ]

/-- All statements of all repository-defined function and class bodies. -/
def allRepoSteps : List RepoStep :=
  makeMaternKernelSteps ++ printActionInitSteps ++ printActionRunSteps ++
  runAdamSteps ++ runNatGradsWithAdamSteps ++ customTBInitSteps ++ customTBRunSteps

/-- C1 as stated: no repository-defined statement performs non-trivial
algorithmic work, and every numerical computation in repository code is a
delegation to an external-library call. -/
def claimC1holds : Bool :=
  allRepoSteps.all fun s => (!s.numeric || s.viaExternal) && !s.nontrivialAlg

/-- C1 counterexample: the claim as stated is false.  The minibatch-count
ceiling division in `CustomTensorBoardTask.run` is a numerical computation
evaluated by plain Python integer arithmetic in repository code, not by an
external-library call; likewise the slice-bound products. -/
theorem c1_counterexample : claimC1holds = false := by decide

/-- C1 (amended): no repository-defined statement performs non-trivial
algorithmic work, and every numerical computation in repository code is
either a delegation to an external-library call or trivial scalar index
arithmetic for minibatch slicing; the non-delegated ones are exactly the
minibatch-count ceiling division and the slice-bound products of
`CustomTensorBoardTask.run`. -/
theorem c1_amended_theorem :
    (allRepoSteps.all fun s =>
      (!s.numeric || s.viaExternal || s.indexArith) && !s.nontrivialAlg) = true
    ∧ ((allRepoSteps.filter fun s => s.numeric && !s.viaExternal).map fun s => s.desc)
      = [ "number of minibatches as minus of minus len Xt floordiv minibatch_size"
        , "slice bounds mb times minibatch_size and mb plus one times minibatch_size" ] := by
  constructor <;> rfl

/-- C3 as stated: no repository statement alters how warnings surface,
resumes from a prior interruption, or contains its own error handling. -/
def claimC3holds : Bool :=
  allStmts.all fun s => !s.altersWarnings && !s.resumesFromCheckpoint && !s.ownErrorHandling

/-- C3 counterexample: the claim as stated is false.  The natural-gradients
notebook suppresses all warnings with warnings.filterwarnings, and the
monitor notebook contains a branch that detects an existing checkpoint
directory and resumes from it. -/
theorem c3_counterexample : claimC3holds = false := by decide

/-- C3 (amended): the repository contains no error handling of its own, and
exactly two statements deviate from pure pass-through of failures: the
global suppression of warnings in the natural-gradients notebook and the
checkpoint-restore branch of the monitor notebook. -/
theorem c3_amended_theorem :
    ((allStmts.filter fun s => s.altersWarnings || s.resumesFromCheckpoint).map fun s => s.desc)
      = [ "warnings.filterwarnings ignore"
        , "if os.path.isdir ./monitor-saves then mon.restore_session" ]
    ∧ (allStmts.all fun s => !s.ownErrorHandling) = true := by
  constructor <;> rfl

/-- C5 as stated for one notebook: every model construction precedes every
optimizer/monitor/task construction, every such construction precedes
every training-loop invocation, and no result is printed before the first
training-loop invocation. -/
def strictPhaseSeq (nb : List PyStmt) : Bool :=
  pairwiseBefore nb (fun s => s.constructsModel) (fun s => s.constructsOptimizer) &&
  pairwiseBefore nb (fun s => s.constructsOptimizer) (fun s => s.invokesTraining) &&
  ((idxWhere nb fun s => s.printsResult).all fun i => decide (firstTrainingIdx nb ≤ i))

/-- C5 counterexample: the claim as stated is false.  Both notebooks
display baseline log-likelihoods before any training loop is invoked, and
the natural-gradients notebook constructs further models after earlier
training loops have run. -/
theorem c5_counterexample :
    ¬ (strictPhaseSeq natgradsStmts = true ∧ strictPhaseSeq monitorStmts = true) := by
  decide

/-- C5 (amended) for one notebook: in order of first occurrence, a model is
constructed before any optimizer/monitor/task object, which is constructed
before any training loop is invoked; the last result display follows the
last training loop; but baseline likelihoods are also printed before
training. -/
def sectionedPhaseSeq (nb : List PyStmt) : Bool :=
  decide ((nb.findIdx fun s => s.constructsModel) < (nb.findIdx fun s => s.constructsOptimizer)) &&
  decide ((nb.findIdx fun s => s.constructsOptimizer) < firstTrainingIdx nb) &&
  decide ((idxWhere nb fun s => s.invokesTraining).getLastD 0
            < (idxWhere nb fun s => s.printsResult).getLastD 0) &&
  ((idxWhere nb fun s => s.printsResult).any fun i => decide (i < firstTrainingIdx nb))

/-- C5 (amended): each notebook constructs its first model before its first
optimizer/monitor/task object, which precedes the first training loop, and
prints its final results after the last training loop; in addition,
baseline likelihoods are printed before training. -/
theorem c5_amended_theorem :
    sectionedPhaseSeq natgradsStmts = true ∧ sectionedPhaseSeq monitorStmts = true := by
  decide

/-- C6: every file-writing statement of the notebooks writes under
./monitor-saves or ./model-tensorboard, and does so through the external
library's persistence and visualization mechanisms. -/
theorem c6_artifacts :
    (allStmts.all fun s => s.writesUnder.all fun d =>
      (d == "./monitor-saves" || d == "./model-tensorboard")
        && s.callsExternal.contains Lib.gpflow) = true := by
  rfl

/-- C10: no repository statement creates a thread or process or coordinates
an interleaving of its own, and every statement that sets up background
checkpointing or event-log writing delegates to the external library. -/
theorem c10_no_concurrency :
    (allStmts.all fun s => !s.spawnsThread) = true
    ∧ (allStmts.all fun s => s.writesUnder.isNone || s.callsExternal.contains Lib.gpflow) = true := by
  constructor <;> rfl

/-- Python floor division on integers (the Python // operator, which
rounds toward negative infinity). -/
def pyFloorDiv (a b : Int) : Int := Int.fdiv a b

/-- The number of prediction minibatches computed by
`CustomTensorBoardTask.run`: the Python expression
`-(-len(Xt) // minibatch_size)` with `minibatch_size = 100`. -/
def numBatches (n : Nat) : Int := -(pyFloorDiv (-(n : Int)) 100)

/-- The Python slice `xs[a:b]` for `0 ≤ a ≤ b`, clamped at the end of the
list. -/
def pySlice (xs : List α) (a b : Nat) : List α := (xs.drop a).take (b - a)

/-- The rows of `np.vstack` of `self.model.predict_y` applied to the
consecutive minibatch slices of `Xt` in `CustomTensorBoardTask.run`, with
`predict_y` modelled as a per-row prediction function. -/
def stackedPreds (predictRow : α → β) (xs : List α) : List β :=
  (List.range (numBatches xs.length).toNat).flatMap
    fun mb => (pySlice xs (mb * 100) ((mb + 1) * 100)).map predictRow

/-- The Python ceiling trick: `-(-n // 100)` equals the rounded-up
quotient `(n + 99) / 100`. -/
theorem numBatches_eq_ceil (n : Nat) : numBatches n = ((n + 99) / 100 : Nat) := by
  unfold numBatches pyFloorDiv
  have h : Int.fdiv (-(n : Int)) 100 = (-(n : Int)) / 100 := by
    rw [Int.fdiv_eq_ediv]
    norm_num
  rw [h]
  omega

/-- Concatenating the first `k` consecutive 100-slices of `xs` yields the
first `k * 100` elements of `xs`. -/
theorem slices_flatMap_take (xs : List α) (k : Nat) :
    ((List.range k).flatMap fun mb => pySlice xs (mb * 100) ((mb + 1) * 100))
      = xs.take (k * 100) := by
  induction k with
  | zero => rfl
  | succ k ih =>
    rw [List.range_succ, List.flatMap_append, ih]
    have hb : (k + 1) * 100 - k * 100 = 100 := by omega
    have hsucc : (k + 1) * 100 = k * 100 + 100 := by ring
    rw [List.flatMap_cons, List.flatMap_nil, List.append_nil, pySlice, hb, hsucc,
      List.take_add]

/-- The slices cover the whole list: `numBatches` many consecutive
100-slices concatenate back to `xs`. -/
theorem slices_flatMap_eq (xs : List α) :
    ((List.range (numBatches xs.length).toNat).flatMap
        fun mb => pySlice xs (mb * 100) ((mb + 1) * 100)) = xs := by
  rw [slices_flatMap_take]
  apply List.take_of_length_le
  have h := numBatches_eq_ceil xs.length
  have h2 : (numBatches xs.length).toNat = (xs.length + 99) / 100 := by omega
  rw [h2]
  have h3 := Nat.div_add_mod (xs.length + 99) 100
  have h4 := Nat.mod_lt (xs.length + 99) (show 0 < 100 by norm_num)
  omega

/-- The stacked prediction matrix has exactly as many rows as `xs`. -/
theorem stackedPreds_length (predictRow : α → β) (xs : List α) :
    (stackedPreds predictRow xs).length = xs.length := by
  unfold stackedPreds
  have h : ((List.range (numBatches xs.length).toNat).flatMap
      fun mb => (pySlice xs (mb * 100) ((mb + 1) * 100)).map predictRow)
      = ((List.range (numBatches xs.length).toNat).flatMap
          fun mb => pySlice xs (mb * 100) ((mb + 1) * 100)).map predictRow := by
    rw [List.map_flatMap]
  rw [h, List.length_map, slices_flatMap_eq]

/-- C8: in `CustomTensorBoardTask.run`, the number of prediction
minibatches `-(-len(Xt) // 100)` is the rounded-up quotient
`(len(Xt) + 99) / 100`; for a non-empty `Xt` the consecutive slices
`Xt[mb*100:(mb+1)*100]` partition `Xt` exactly; the vertically stacked
prediction matrix has exactly `len(Xt)` rows; and when `len(Xt)` is not a
multiple of 100 the last slice is shorter, of length `len(Xt) % 100`. -/
theorem c8_minibatch_partition (xs : List α) (predictRow : α → β) (hne : xs ≠ []) :
    numBatches xs.length = ((xs.length + 99) / 100 : Nat)
    ∧ ((List.range (numBatches xs.length).toNat).flatMap
        fun mb => pySlice xs (mb * 100) ((mb + 1) * 100)) = xs
    ∧ (stackedPreds predictRow xs).length = xs.length
    ∧ (¬ (100 ∣ xs.length) →
        (pySlice xs (((numBatches xs.length).toNat - 1) * 100)
            ((numBatches xs.length).toNat * 100)).length = xs.length % 100) := by
  refine ⟨numBatches_eq_ceil xs.length, slices_flatMap_eq xs,
    stackedPreds_length predictRow xs, fun hnd => ?_⟩
  have h := numBatches_eq_ceil xs.length
  have h2 : (numBatches xs.length).toNat = (xs.length + 99) / 100 := by omega
  have hlen : xs.length ≠ 0 := fun h0 => hne (List.eq_nil_of_length_eq_zero h0)
  rw [pySlice, List.length_take, List.length_drop, h2]
  have h3 := Nat.div_add_mod (xs.length + 99) 100
  have h4 := Nat.mod_lt (xs.length + 99) (show 0 < 100 by norm_num)
  have h5 : ¬ (xs.length % 100 = 0) := by
    intro h0
    exact hnd (Nat.dvd_of_mod_eq_zero h0)
  omega

/-- C8 witness: the theorem instantiated at the 250-element list of
naturals, which splits into three minibatches, the last of length 50. -/
theorem c8_minibatch_partition_witness :
    numBatches (List.range 250 : List Nat).length
        = (((List.range 250 : List Nat).length + 99) / 100 : Nat)
    ∧ ((List.range (numBatches (List.range 250 : List Nat).length).toNat).flatMap
        fun mb => pySlice (List.range 250 : List Nat) (mb * 100) ((mb + 1) * 100))
        = List.range 250
    ∧ (stackedPreds id (List.range 250 : List Nat)).length
        = (List.range 250 : List Nat).length
    ∧ (¬ (100 ∣ (List.range 250 : List Nat).length) →
        (pySlice (List.range 250 : List Nat)
            (((numBatches (List.range 250 : List Nat).length).toNat - 1) * 100)
            ((numBatches (List.range 250 : List Nat).length).toNat * 100)).length
          = (List.range 250 : List Nat).length % 100) :=
  c8_minibatch_partition (List.range 250) id (by decide)

/-- The notebook-global environment read by `CustomTensorBoardTask.run`:
the monitor notebook globals `Xt` and `Yt` (the body references the bare
names `Xt` and `Yt`, not `self.Xt` and `self.Yt`). -/
structure NotebookGlobals where
  Xt : List ℚ
  Yt : List ℚ
deriving DecidableEq

/-- The state of a `CustomTensorBoardTask` instance as set by its
constructor: the model and the constructor arguments stored on `self`. -/
structure CustomTaskState where
  modelId : Nat
  selfXt : List ℚ
  selfYt : List ℚ
deriving DecidableEq

/-- `CustomTensorBoardTask.run`: predictions are computed minibatch-wise
over the global `Xt`, `test_err` is the root of the mean squared residual
against the global `Yt`, and the pair fed to `_eval_summary` is returned
together with the (unchanged) instance state.  `predict` models
`self.model.predict_y` row-wise and `sqrtQ` models the floating-point
power 0.5. -/
def customTaskRun (predict : Nat → ℚ → ℚ) (sqrtQ : ℚ → ℚ)
    (g : NotebookGlobals) (t : CustomTaskState) : ℚ × CustomTaskState :=
  let preds := stackedPreds (predict t.modelId) g.Xt
  let residuals := (g.Yt.zip preds).map fun p => (p.1 - p.2) ^ 2
  let testErr := sqrtQ (residuals.sum / (residuals.length : ℚ))
  (testErr, t)

/-- C9: the summary value written by `CustomTensorBoardTask.run` does not
depend on the `Xt` and `Yt` arguments given to the constructor: two
instances over the same model and the same notebook globals log the same
test_rmse, whatever test arrays they were constructed with. -/
theorem c9_noninterference (predict : Nat → ℚ → ℚ) (sqrtQ : ℚ → ℚ)
    (g : NotebookGlobals) (t1 t2 : CustomTaskState)
    (h : t1.modelId = t2.modelId) :
    (customTaskRun predict sqrtQ g t1).1 = (customTaskRun predict sqrtQ g t2).1 := by
  unfold customTaskRun
  rw [h]

/-- C9 witness: two concrete instances with different stored test arrays
produce the same summary value on the same globals. -/
theorem c9_noninterference_witness :
    ({ modelId := 0, selfXt := [1], selfYt := [2] } : CustomTaskState).selfXt
      ≠ ({ modelId := 0, selfXt := [3], selfYt := [4] } : CustomTaskState).selfXt
    ∧ (customTaskRun (fun _ x => x) id { Xt := [1, 2], Yt := [1, 1] }
        { modelId := 0, selfXt := [1], selfYt := [2] }).1
      = (customTaskRun (fun _ x => x) id { Xt := [1, 2], Yt := [1, 1] }
        { modelId := 0, selfXt := [3], selfYt := [4] }).1 :=
  ⟨by decide, c9_noninterference (fun _ x => x) id _ _ _ rfl⟩

/-- The state of a `PrintAction` instance as set by its constructor. -/
structure PrintActionState where
  model : Nat
  text : String
deriving DecidableEq

/-- The context handed to an `Action` by the gpflow `Loop`: the iteration
counter and the session, modelled as the map from a model to the current
value of its likelihood tensor. -/
structure ActionContext where
  iteration : Nat
  likelihoodOf : Nat → ℚ

/-- `PrintAction.run`: evaluates the likelihood tensor of `self.model` in
the session and prints one formatted line; returns the printed line and
the (unchanged) instance state. -/
def printActionRun (self : PrintActionState) (ctx : ActionContext) :
    String × PrintActionState :=
  let likelihood := ctx.likelihoodOf self.model
  (self.text ++ ": iteration " ++ toString ctx.iteration
    ++ " likelihood " ++ toString likelihood, self)

/-- Kinds of entities the notebooks manipulate. -/
inductive EntityKind where
  | dataArray
  | hyperparamScalar
  | externalObject
  | repoDefined
deriving DecidableEq, Repr

/-- An entity manipulated by a notebook. -/
structure Entity where
  desc : String
  kind : EntityKind
deriving DecidableEq, Repr

/-- The entities manipulated by the two notebooks. -/
def notebookEntities : List Entity :=
  [ { desc := "feature matrix X", kind := .dataArray }
  , { desc := "target matrix Y", kind := .dataArray }
  , { desc := "inducing point locations Z", kind := .dataArray }
  , { desc := "test feature matrix Xt", kind := .dataArray }
  , { desc := "test target matrix Yt", kind := .dataArray }
  , { desc := "binary targets Y_binary", kind := .dataArray }
  , { desc := "learning_rate", kind := .hyperparamScalar }
  , { desc := "natural gradient step size gamma", kind := .hyperparamScalar }
  , { desc := "iterations and maxiter counts", kind := .hyperparamScalar }
  , { desc := "minibatch_size", kind := .hyperparamScalar }
  , { desc := "data sizes N D M", kind := .hyperparamScalar }
  , { desc := "models vgp gpr svgp sgpr and m", kind := .externalObject }
  , { desc := "kernels and likelihood objects", kind := .externalObject }
  , { desc := "optimizers NatGradOptimizer AdamOptimizer", kind := .externalObject }
  , { desc := "monitor tasks print sleep saver model_tboard lml_tboard", kind := .externalObject }
  , { desc := "file_writer LogdirWriter", kind := .externalObject }
  , { desc := "monitor and session and global_step", kind := .externalObject }
  , { desc := "PrintAction instances", kind := .repoDefined }
  , { desc := "custom_tboard_task instance of CustomTensorBoardTask", kind := .repoDefined } ]

/-- C7: every notebook entity is an input data array, a hyperparameter
scalar, or an external-library object, except for the two repository-
defined callback instances; and those hold no state subject to invariants
they must maintain: their `run` methods never modify instance state (all
fields are written once, in the constructor). -/
theorem c7_entities :
    ((notebookEntities.filter fun e => e.kind == .repoDefined).map fun e => e.desc)
      = [ "PrintAction instances", "custom_tboard_task instance of CustomTensorBoardTask" ]
    ∧ (∀ s : PrintActionState, ∀ ctx : ActionContext, (printActionRun s ctx).2 = s)
    ∧ (∀ predict sqrtQ g t, (customTaskRun predict sqrtQ g t).2 = t) :=
  ⟨rfl, fun _ _ => rfl, fun _ _ _ _ => rfl⟩

/-- The state of a variational model as seen by `run_nat_grads_with_adam`:
the variational parameters `q_mu` and `q_sqrt`, a representative
hyperparameter, and the two trainable flags. -/
structure NGModelState where
  q_mu : ℚ
  q_sqrt : ℚ
  hyper : ℚ
  q_mu_trainable : Bool
  q_sqrt_trainable : Bool
deriving DecidableEq

/-- The observable events emitted by `run_nat_grads_with_adam`, in
program order. -/
inductive NGEvent where
  | setQMuTrainable (b : Bool)
  | setQSqrtTrainable (b : Bool)
  | makeAdamAction
  | makeNatGradAction
  | loopRun (iterations : Nat)
  | anchor
deriving DecidableEq, Repr

/-- Modelled from the spec: the optimize action built by GPflow's
`AdamOptimizer.make_optimize_action` (gpflow/training, not under `src/`)
applies the Adam update to every trainable variable of the model and
leaves non-trainable variables unchanged.  `step` is the Adam update on a
scalar variable. -/
def adamAction (step : ℚ → ℚ) (m : NGModelState) : NGModelState :=
  { m with hyper := step m.hyper
         , q_mu := if m.q_mu_trainable then step m.q_mu else m.q_mu
         , q_sqrt := if m.q_sqrt_trainable then step m.q_sqrt else m.q_sqrt }

/-- Modelled from the spec: the optimize action built by GPflow's
`NatGradOptimizer.make_optimize_action` (not under `src/`) applies the
natural-gradient update to exactly the variational parameter pairs listed
in `var_list`, regardless of their trainable flags. -/
def natGradAction (ngMu ngSqrt : ℚ → ℚ) (m : NGModelState) : NGModelState :=
  { m with q_mu := ngMu m.q_mu, q_sqrt := ngSqrt m.q_sqrt }

/-- gpflow `Loop([adam, natgrad], stop=iterations)()`: runs the Adam
action, then the natural-gradient action, `iterations` times. -/
def loopAdamNatGrad (step ngMu ngSqrt : ℚ → ℚ) : Nat → NGModelState → NGModelState
  | 0, m => m
  | n + 1, m => loopAdamNatGrad step ngMu ngSqrt n (natGradAction ngMu ngSqrt (adamAction step m))

/-- `run_nat_grads_with_adam` (natural-gradients notebook, cell 7): the
default `var_list` is the pair `(model.q_mu, model.q_sqrt)`; the trainable
flags of `q_mu` and `q_sqrt` are unconditionally set to `False`; the Adam
and natural-gradient actions are then built and the loop is run.  The
returned event list records program order.  `defaultNG` is the
natural-gradient transform of the default parameterisation; a caller-
supplied `var_list` carries its own transform (e.g. `XiSqrtMeanVar`). -/
def run_nat_grads_with_adam (step : ℚ → ℚ) (defaultNG : (ℚ → ℚ) × (ℚ → ℚ))
    (var_list : Option ((ℚ → ℚ) × (ℚ → ℚ))) (iterations : Nat)
    (m : NGModelState) : NGModelState × List NGEvent :=
  let vl := var_list.getD defaultNG
  let m1 := { m with q_mu_trainable := false }
  let m2 := { m1 with q_sqrt_trainable := false }
  let m3 := loopAdamNatGrad step vl.1 vl.2 iterations m2
  (m3, [ .setQMuTrainable false, .setQSqrtTrainable false
       , .makeAdamAction, .makeNatGradAction, .loopRun iterations, .anchor ])

/-- Once the trainable flags of `q_mu` and `q_sqrt` are `False`, the loop
keeps them `False` and the variational parameters evolve only by the
natural-gradient transform: the Adam action never touches them. -/
theorem loopAdamNatGrad_invariant (step ngMu ngSqrt : ℚ → ℚ) (n : Nat)
    (m : NGModelState) (h1 : m.q_mu_trainable = false) (h2 : m.q_sqrt_trainable = false) :
    (loopAdamNatGrad step ngMu ngSqrt n m).q_mu_trainable = false
    ∧ (loopAdamNatGrad step ngMu ngSqrt n m).q_sqrt_trainable = false
    ∧ (loopAdamNatGrad step ngMu ngSqrt n m).q_mu = ngMu^[n] m.q_mu
    ∧ (loopAdamNatGrad step ngMu ngSqrt n m).q_sqrt = ngSqrt^[n] m.q_sqrt := by
  induction n generalizing m with
  | zero => exact ⟨h1, h2, rfl, rfl⟩
  | succ n ih =>
    have hstep : natGradAction ngMu ngSqrt (adamAction step m)
        = { m with q_mu := ngMu m.q_mu, q_sqrt := ngSqrt m.q_sqrt
                 , hyper := step m.hyper } := by
      simp [natGradAction, adamAction, h1, h2]
    have := ih (natGradAction ngMu ngSqrt (adamAction step m))
      (by rw [hstep]; exact h1) (by rw [hstep]; exact h2)
    refine ⟨this.1, this.2.1, ?_, ?_⟩
    · rw [show loopAdamNatGrad step ngMu ngSqrt (n + 1) m
          = loopAdamNatGrad step ngMu ngSqrt n (natGradAction ngMu ngSqrt (adamAction step m))
          from rfl, this.2.2.1, hstep, Function.iterate_succ_apply]
    · rw [show loopAdamNatGrad step ngMu ngSqrt (n + 1) m
          = loopAdamNatGrad step ngMu ngSqrt n (natGradAction ngMu ngSqrt (adamAction step m))
          from rfl, this.2.2.2, hstep, Function.iterate_succ_apply]

/-- C4: `run_nat_grads_with_adam` sets `q_mu` and `q_sqrt` non-trainable
before building the Adam optimize action (the event trace places both
set-trainable events before the Adam-action construction), even when an
explicit `var_list` is supplied; the flags are still `False` on the
returned model; and the variational parameters after the run are exactly
the `iterations`-fold natural-gradient transform of their initial values,
so the Adam steps never updated them. -/
theorem c4_set_trainable_frame (step : ℚ → ℚ) (defaultNG : (ℚ → ℚ) × (ℚ → ℚ))
    (var_list : Option ((ℚ → ℚ) × (ℚ → ℚ))) (iterations : Nat) (m : NGModelState) :
    (run_nat_grads_with_adam step defaultNG var_list iterations m).2
      = [ .setQMuTrainable false, .setQSqrtTrainable false
        , .makeAdamAction, .makeNatGradAction, .loopRun iterations, .anchor ]
    ∧ (run_nat_grads_with_adam step defaultNG var_list iterations m).1.q_mu_trainable = false
    ∧ (run_nat_grads_with_adam step defaultNG var_list iterations m).1.q_sqrt_trainable = false
    ∧ (run_nat_grads_with_adam step defaultNG var_list iterations m).1.q_mu
        = (var_list.getD defaultNG).1^[iterations] m.q_mu
    ∧ (run_nat_grads_with_adam step defaultNG var_list iterations m).1.q_sqrt
        = (var_list.getD defaultNG).2^[iterations] m.q_sqrt := by
  have h := loopAdamNatGrad_invariant step (var_list.getD defaultNG).1
    (var_list.getD defaultNG).2 iterations
    { m with q_mu_trainable := false, q_sqrt_trainable := false } rfl rfl
  exact ⟨rfl, h.1, h.2.1, h.2.2.1, h.2.2.2⟩

/-- Modelled from the spec: the VGP and GPR models and the
`NatGradOptimizer` update rule are GPflow library code
(`gpflow/models/vgp.py`, `gpflow/models/gpr.py`,
`gpflow/training/natgrad_optimizer.py`), which is not under `src/`.
Following the spec, for a VGP with Gaussian likelihood the optimization
is over the variational parameters `(q_mu, q_sqrt)`; in their natural
parameterisation the ELBO reported by `compute_log_likelihood` decomposes
as the closed-form GPR log marginal likelihood minus the KL divergence
from the variational posterior to the exact posterior, which vanishes
exactly at the natural parameters of the exact posterior. -/
structure ConjugateVGP (V : Type) [AddCommGroup V] [Module ℚ V] where
  /-- natural parameters of the exact posterior: the value of
  `(q_mu, q_sqrt)` at which the VGP reproduces the GPR -/
  thetaOpt : V
  /-- closed-form exact log marginal likelihood of the GPR model on the
  same data and kernel, `gpr.compute_log_likelihood()` -/
  gprLogLik : ℚ
  /-- KL divergence from the variational posterior at the given natural
  parameters to the exact posterior -/
  klToPosterior : V → ℚ
  /-- the KL divergence vanishes at the exact posterior -/
  kl_opt : klToPosterior thetaOpt = 0

/-- Modelled from the spec: `vgp.compute_log_likelihood()`, the ELBO of
the VGP at variational natural parameters `t`. -/
def vgpLogLik {V : Type} [AddCommGroup V] [Module ℚ V]
    (c : ConjugateVGP V) (t : V) : ℚ :=
  c.gprLogLik - c.klToPosterior t

/-- Modelled from the spec: one `NatGradOptimizer(gamma).minimize(vgp,
maxiter=1, var_list=[[vgp.q_mu, vgp.q_sqrt]])` step moves the natural
parameters toward those of the exact posterior by the fraction `gamma`;
in the conjugate (Gaussian-likelihood) case the natural gradient of the
ELBO in natural parameters is exactly `thetaOpt - t`. -/
def natGradMinimizeStep {V : Type} [AddCommGroup V] [Module ℚ V]
    (c : ConjugateVGP V) (gamma : ℚ) (t : V) : V :=
  t + gamma • (c.thetaOpt - t)

/-- C2: for a VGP with Gaussian likelihood, a single natural-gradient step
with `gamma = 1` on `(q_mu, q_sqrt)` drives the VGP log-likelihood (ELBO)
to equal the closed-form exact log marginal likelihood of the GPR on the
same data and kernel. -/
theorem c2_vgp_is_gpr {V : Type} [AddCommGroup V] [Module ℚ V]
    (c : ConjugateVGP V) (t : V) :
    vgpLogLik c (natGradMinimizeStep c 1 t) = c.gprLogLik := by
  have h : natGradMinimizeStep c 1 t = c.thetaOpt := by
    unfold natGradMinimizeStep
    rw [one_smul]
    abel
  rw [vgpLogLik, h, c.kl_opt, sub_zero]
